import Mathlib

/-!
Verification of the task-stream monitor, flow generation, credential store,
and endpoint gating of the yc-hackathon backend, via a shallow embedding of
the Python source (src/backend) into Lean.

Conventions of the embedding:
* Each poll of the Browser Use Cloud monitor either returns a snapshot of the
  remote task (`TaskSnapshot`) or raises (`PollResult.exn`); the monitor is a
  function from the finite list of successive poll outcomes to the list of
  events it yields, mirroring `monitor_task_stream` in
  `services/browser_use_cloud_service.py` lines 140-203 (the identical loop
  also appears in `services/streaming_service.py` and `main.py`).
* Real-time data (ISO timestamps) and the constant `task_id` field carried on
  every event are omitted from the event model; the 2-second sleep between
  polls is represented by the succession of elements in the poll list.
-/

/-- One snapshot of a remote task as returned by `get_task_status`:
`status` string, the full step list so far, optional live-view URL and
optional final output (`done_output`). Steps are opaque provider blobs,
so the snapshot is parametric in the step type. -/
structure TaskSnapshot (Step : Type) where
  status : String
  steps : List Step
  live_url : Option String
  done_output : Option String
deriving DecidableEq

/-- Outcome of one poll: either a snapshot, or an exception whose text is
`msg` (network failure, malformed response, ...). -/
inductive PollResult (Step : Type) where
  | ok (snap : TaskSnapshot Step)
  | exn (msg : String)
deriving DecidableEq

/-- The events yielded by the monitor, with the payload fields the source
attaches to each dict (minus task_id/timestamp, see module docstring). -/
inductive Event (Step : Type) where
  | step (s : Step)
  | status (status : String) (live_url : Option String) (steps_count : Nat)
  | completion (status : String) (output : Option String)
  | error (msg : String)
deriving DecidableEq

/-- The terminal status set checked at line 181 of
`browser_use_cloud_service.py`: `["finished", "failed", "stopped"]`. -/
def terminalStatuses : List String := ["finished", "failed", "stopped"]

/-- The monitor loop body iterated over the successive poll outcomes,
carrying the `previous_steps_count` state (`prev`). Mirrors the
`while not task_completed` loop of `monitor_task_stream` (lines 148-203):
an exception yields one error event and breaks; otherwise, if the snapshot
has more steps than last seen, one step event per new step is yielded in
provider order and the count is updated; then one status event; then, on a
terminal status, one completion event and the loop breaks.  An exhausted
poll list models observing a finite prefix of a still-running task. -/
def monitorFrom {Step : Type} : Nat → List (PollResult Step) → List (Event Step)
  | _, [] => []
  | _, PollResult.exn msg :: _ => [Event.error msg]
  | prev, PollResult.ok snap :: rest =>
    let newEvents : List (Event Step) :=
      if snap.steps.length > prev then (snap.steps.drop prev).map Event.step else []
    let prevNext : Nat :=
      if snap.steps.length > prev then snap.steps.length else prev
    let statusEvent : Event Step :=
      Event.status snap.status snap.live_url snap.steps.length
    if snap.status ∈ terminalStatuses then
      newEvents ++ [statusEvent, Event.completion snap.status snap.done_output]
    else
      newEvents ++ statusEvent :: monitorFrom prevNext rest

/-- `monitor_task_stream`: the full run starts with
`previous_steps_count = 0` (line 145). -/
def monitor_task_stream {Step : Type} (polls : List (PollResult Step)) : List (Event Step) :=
  monitorFrom 0 polls

/-- The update of `previous_steps_count` performed by one loop iteration
(lines 156-167): raised to the snapshot's step count only when that count
strictly exceeds it, otherwise unchanged; an exception leaves it unchanged. -/
def stepState {Step : Type} (prev : Nat) (p : PollResult Step) : Nat :=
  match p with
  | PollResult.ok snap => if snap.steps.length > prev then snap.steps.length else prev
  | PollResult.exn _ => prev

/-- The `previous_steps_count` state after consuming a list of polls. -/
def stateAfter {Step : Type} : Nat → List (PollResult Step) → Nat
  | prev, [] => prev
  | prev, p :: rest => stateAfter (stepState prev p) rest

/-- A poll outcome that keeps the loop running: a snapshot whose status is
not in the terminal set. -/
def okNonTerminal {Step : Type} (p : PollResult Step) : Bool :=
  match p with
  | PollResult.ok snap => decide (snap.status ∉ terminalStatuses)
  | PollResult.exn _ => false

/-- Number of completion events in an event list. -/
def countCompletions {Step : Type} (es : List (Event Step)) : Nat :=
  (es.filter (fun e => match e with | Event.completion _ _ => true | _ => false)).length

/-- Number of error events in an event list. -/
def countErrors {Step : Type} (es : List (Event Step)) : Nat :=
  (es.filter (fun e => match e with | Event.error _ => true | _ => false)).length

/-- Unfolding of one non-exceptional loop iteration whose snapshot has at
least as many steps as last seen: the tick contributes exactly the newly
appeared steps (positions `prev` onward, provider order) and then the status
event, and the carried count becomes the snapshot's count. -/
lemma monitorFrom_ok_of_le {Step : Type} (prev : Nat) (snap : TaskSnapshot Step)
    (rest : List (PollResult Step)) (h : prev ≤ snap.steps.length) :
    monitorFrom prev (PollResult.ok snap :: rest) =
      (snap.steps.drop prev).map Event.step ++
        Event.status snap.status snap.live_url snap.steps.length ::
          (if snap.status ∈ terminalStatuses then
            [Event.completion snap.status snap.done_output]
          else monitorFrom snap.steps.length rest) := by
  rcases Nat.lt_or_ge prev snap.steps.length with hlt | hge
  · simp only [monitorFrom, if_pos hlt]
    split
    · rfl
    · rfl
  · have heq : snap.steps.length = prev := Nat.le_antisymm hge h
    have hnot : ¬ (snap.steps.length > prev) := by omega
    have hdrop : snap.steps.drop prev = [] := by
      apply List.drop_eq_nil_of_le
      omega
    simp only [monitorFrom, if_neg hnot, hdrop, heq, List.map_nil, List.nil_append,
      gt_iff_lt, lt_irrefl, if_false, ite_false]
    split <;> rfl

/-- Unfolding of one non-exceptional loop iteration whose snapshot has no
more steps than last seen: no step event is emitted, the count is kept. -/
lemma monitorFrom_ok_of_ge {Step : Type} (prev : Nat) (snap : TaskSnapshot Step)
    (rest : List (PollResult Step)) (h : snap.steps.length ≤ prev) :
    monitorFrom prev (PollResult.ok snap :: rest) =
      Event.status snap.status snap.live_url snap.steps.length ::
        (if snap.status ∈ terminalStatuses then
          [Event.completion snap.status snap.done_output]
        else monitorFrom prev rest) := by
  have hnot : ¬ (snap.steps.length > prev) := by omega
  simp only [monitorFrom, if_neg hnot, List.nil_append]
  split <;> rfl

/-- No event in a list of step events is a completion or error event. -/
lemma count_maps_step {Step : Type} (xs : List Step) :
    countCompletions (xs.map Event.step) = 0 ∧ countErrors (xs.map Event.step) = 0 := by
  induction xs with
  | nil => exact ⟨rfl, rfl⟩
  | cons x xs ih =>
    refine ⟨?_, ?_⟩
    · simp [countCompletions]
    · simp [countErrors]

/-- Counting events in a concatenation. -/
lemma count_append {Step : Type} (a b : List (Event Step)) :
    countCompletions (a ++ b) = countCompletions a + countCompletions b ∧
    countErrors (a ++ b) = countErrors a + countErrors b := by
  constructor
  · simp [countCompletions, List.filter_append]
  · simp [countErrors, List.filter_append]

/-- A status event at the head does not change the error count. -/
lemma countErrors_cons_status {Step : Type} (st : String) (lu : Option String)
    (n : Nat) (l : List (Event Step)) :
    countErrors (Event.status st lu n :: l) = countErrors l := by
  simp [countErrors]

/-- C1: on every polling tick whose snapshot's step count is at least the
last-seen count, the monitor emits exactly `current - previous` step events
(one per newly appeared step, in provider order, no dedup or reorder)
followed by exactly one status event carrying the current status and the
current step count; the carried count becomes the current count. -/
theorem monitor_tick_emits_delta_then_status {Step : Type} (prev : Nat)
    (snap : TaskSnapshot Step) (rest : List (PollResult Step))
    (h : prev ≤ snap.steps.length) :
    monitorFrom prev (PollResult.ok snap :: rest) =
      (snap.steps.drop prev).map Event.step ++
        Event.status snap.status snap.live_url snap.steps.length ::
          (if snap.status ∈ terminalStatuses then
            [Event.completion snap.status snap.done_output]
          else monitorFrom snap.steps.length rest) ∧
    ((snap.steps.drop prev).map Event.step).length = snap.steps.length - prev ∧
    stepState prev (PollResult.ok snap) = snap.steps.length := by
  refine ⟨monitorFrom_ok_of_le prev snap rest h, ?_, ?_⟩
  · simp
  · rcases Nat.lt_or_ge prev snap.steps.length with hlt | hge
    · simp [stepState, hlt]
    · have : snap.steps.length = prev := Nat.le_antisymm hge h
      simp [stepState, this]

/-- Witness for C1 at a concrete tick: previous count 1, snapshot with
steps [a, b, c]: two step events (b then c) and one status event. -/
theorem monitor_tick_emits_delta_then_status_witness :
    1 ≤ (TaskSnapshot.mk "running" ["a", "b", "c"] none none).steps.length ∧
    (monitorFrom 1 [PollResult.ok (TaskSnapshot.mk "running" ["a", "b", "c"] none none)] =
      ((TaskSnapshot.mk "running" ["a", "b", "c"] none none).steps.drop 1).map Event.step ++
        Event.status "running" none 3 ::
          (if ("running" : String) ∈ terminalStatuses then
            [Event.completion "running" none]
          else monitorFrom 3 []) ∧
    (((TaskSnapshot.mk "running" ["a", "b", "c"] none none).steps.drop 1).map
        (Event.step : String → Event String)).length = 3 - 1 ∧
    stepState 1 (PollResult.ok (TaskSnapshot.mk "running" ["a", "b", "c"] none none)) = 3) :=
  ⟨by decide, monitor_tick_emits_delta_then_status 1
    (TaskSnapshot.mk "running" ["a", "b", "c"] none none) [] (by decide)⟩

/-- C2: a poll whose status is terminal ends the run: after that tick's step
events (relative to the zero baseline when it is the very first poll, so no
already-present step is suppressed) and status event, exactly one completion
event carrying the final output is emitted, and nothing further — the events
do not depend on any later poll outcome. -/
theorem monitor_terminal_completion_halts {Step : Type} (prev : Nat)
    (snap : TaskSnapshot Step) (rest : List (PollResult Step))
    (h : snap.status ∈ terminalStatuses) :
    monitorFrom prev (PollResult.ok snap :: rest) =
      (snap.steps.drop prev).map Event.step ++
        [Event.status snap.status snap.live_url snap.steps.length,
         Event.completion snap.status snap.done_output] ∧
    monitor_task_stream (PollResult.ok snap :: rest) =
      snap.steps.map Event.step ++
        [Event.status snap.status snap.live_url snap.steps.length,
         Event.completion snap.status snap.done_output] ∧
    countCompletions (monitorFrom prev (PollResult.ok snap :: rest)) = 1 ∧
    (∀ rest' : List (PollResult Step),
      monitorFrom prev (PollResult.ok snap :: rest') =
        monitorFrom prev (PollResult.ok snap :: rest)) := by
  have key : ∀ (p : Nat) (r : List (PollResult Step)),
      monitorFrom p (PollResult.ok snap :: r) =
        (snap.steps.drop p).map Event.step ++
          [Event.status snap.status snap.live_url snap.steps.length,
           Event.completion snap.status snap.done_output] := by
    intro p r
    rcases le_or_lt p snap.steps.length with hle | hlt
    · rw [monitorFrom_ok_of_le p snap r hle, if_pos h]
    · have hge : snap.steps.length ≤ p := Nat.le_of_lt hlt
      rw [monitorFrom_ok_of_ge p snap r hge, if_pos h]
      have hdrop : snap.steps.drop p = [] := List.drop_eq_nil_of_le hge
      rw [hdrop]
      rfl
  refine ⟨key prev rest, ?_, ?_, fun rest' => (key prev rest').trans (key prev rest).symm⟩
  · have := key 0 rest
    simpa [monitor_task_stream] using this
  · rw [key prev rest]
    have h1 := (count_append ((snap.steps.drop prev).map Event.step)
      [Event.status snap.status snap.live_url snap.steps.length,
       Event.completion snap.status snap.done_output]).1
    rw [h1, (count_maps_step (snap.steps.drop prev)).1]
    rfl

/-- Witness for C2: the very first poll is already terminal with two steps
present; both steps are emitted, then status, then one completion. -/
theorem monitor_terminal_completion_halts_witness :
    ("finished" : String) ∈ terminalStatuses ∧
    (monitorFrom 0 [PollResult.ok
        (TaskSnapshot.mk "finished" ["s1", "s2"] none (some "out"))] =
      ((TaskSnapshot.mk "finished" ["s1", "s2"] none (some "out")).steps.drop 0).map
          Event.step ++
        [Event.status "finished" none 2, Event.completion "finished" (some "out")] ∧
    monitor_task_stream [PollResult.ok
        (TaskSnapshot.mk "finished" ["s1", "s2"] none (some "out"))] =
      (TaskSnapshot.mk "finished" ["s1", "s2"] none (some "out")).steps.map
          Event.step ++
        [Event.status "finished" none 2, Event.completion "finished" (some "out")] ∧
    countCompletions (monitorFrom 0 [PollResult.ok
        (TaskSnapshot.mk "finished" ["s1", "s2"] none (some "out"))]) = 1 ∧
    (∀ rest' : List (PollResult String),
      monitorFrom 0 (PollResult.ok
          (TaskSnapshot.mk "finished" ["s1", "s2"] none (some "out")) :: rest') =
        monitorFrom 0 [PollResult.ok
          (TaskSnapshot.mk "finished" ["s1", "s2"] none (some "out"))])) :=
  ⟨by decide, monitor_terminal_completion_halts 0
    (TaskSnapshot.mk "finished" ["s1", "s2"] none (some "out")) [] (by decide)⟩

/-- Running the monitor past a prefix of non-terminal snapshots and into an
exception: the prefix's events are exactly those of the prefix run, then the
single error event, and nothing after it. -/
lemma monitorFrom_append_exn {Step : Type} (pre : List (PollResult Step))
    (prev : Nat) (msg : String) (rest : List (PollResult Step))
    (hpre : ∀ p ∈ pre, okNonTerminal p = true) :
    monitorFrom prev (pre ++ PollResult.exn msg :: rest) =
      monitorFrom prev pre ++ [Event.error msg] := by
  induction pre generalizing prev with
  | nil => rfl
  | cons p pre' ih =>
    match p with
    | PollResult.exn m =>
      have := hpre (PollResult.exn m) (List.mem_cons_self _ _)
      simp [okNonTerminal] at this
    | PollResult.ok snap =>
      have hnt : snap.status ∉ terminalStatuses := by
        have := hpre (PollResult.ok snap) (List.mem_cons_self _ _)
        simpa [okNonTerminal] using this
      have hpre' : ∀ q ∈ pre', okNonTerminal q = true := by
        intro q hq
        exact hpre q (List.mem_cons_of_mem _ hq)
      simp only [List.cons_append, monitorFrom, if_neg hnt, List.append_eq]
      rw [ih _ hpre']
      simp

/-- A run over non-terminal snapshots only never yields an error event. -/
lemma countErrors_monitorFrom_ok {Step : Type} (pre : List (PollResult Step))
    (prev : Nat) (hpre : ∀ p ∈ pre, okNonTerminal p = true) :
    countErrors (monitorFrom prev pre) = 0 := by
  induction pre generalizing prev with
  | nil => rfl
  | cons p pre' ih =>
    match p with
    | PollResult.exn m =>
      have := hpre (PollResult.exn m) (List.mem_cons_self _ _)
      simp [okNonTerminal] at this
    | PollResult.ok snap =>
      have hnt : snap.status ∉ terminalStatuses := by
        have := hpre (PollResult.ok snap) (List.mem_cons_self _ _)
        simpa [okNonTerminal] using this
      have hpre' : ∀ q ∈ pre', okNonTerminal q = true := by
        intro q hq
        exact hpre q (List.mem_cons_of_mem _ hq)
      simp only [monitorFrom, if_neg hnt]
      have h1 := (count_append
        (if snap.steps.length > prev then (snap.steps.drop prev).map Event.step else [])
        (Event.status snap.status snap.live_url snap.steps.length ::
          monitorFrom (if snap.steps.length > prev then snap.steps.length else prev) pre')).2
      rw [h1, countErrors_cons_status, ih _ hpre']
      split
      · rw [(count_maps_step _).2]
      · rfl

/-- C3: an exception on any poll (after any prefix of non-terminal
successful polls) makes the monitor emit exactly one error event carrying
the error text and halt: every event emitted before the failure is kept
unchanged, exactly one error event appears in the whole run, and nothing
after the failing poll is ever consumed or emitted. -/
theorem monitor_error_event_halts {Step : Type} (pre : List (PollResult Step))
    (msg : String) (rest : List (PollResult Step))
    (hpre : ∀ p ∈ pre, okNonTerminal p = true) :
    monitor_task_stream (pre ++ PollResult.exn msg :: rest) =
      monitor_task_stream pre ++ [Event.error msg] ∧
    countErrors (monitor_task_stream (pre ++ PollResult.exn msg :: rest)) = 1 ∧
    (∀ rest' : List (PollResult Step),
      monitor_task_stream (pre ++ PollResult.exn msg :: rest') =
        monitor_task_stream (pre ++ PollResult.exn msg :: rest)) := by
  have key := fun r => monitorFrom_append_exn pre 0 msg r hpre
  refine ⟨key rest, ?_, fun rest' => (key rest').trans (key rest).symm⟩
  rw [monitor_task_stream, key rest]
  rw [(count_append (monitorFrom 0 pre) [Event.error msg]).2]
  rw [countErrors_monitorFrom_ok pre 0 hpre]
  rfl

/-- Witness for C3: one successful non-terminal poll, then a failing poll;
the status event of the first tick is kept, then exactly one error event. -/
theorem monitor_error_event_halts_witness :
    (∀ p ∈ [PollResult.ok (TaskSnapshot.mk "running" ["s1"] none none)],
      okNonTerminal p = true) ∧
    (monitor_task_stream
        ([PollResult.ok (TaskSnapshot.mk "running" ["s1"] none none)] ++
          PollResult.exn "boom" :: [PollResult.ok
            (TaskSnapshot.mk "running" ["s1", "s2"] none (none : Option String))]) =
      monitor_task_stream
        [PollResult.ok (TaskSnapshot.mk "running" ["s1"] none none)] ++
        [Event.error "boom"] ∧
    countErrors (monitor_task_stream
        ([PollResult.ok (TaskSnapshot.mk "running" ["s1"] none none)] ++
          PollResult.exn "boom" :: [PollResult.ok
            (TaskSnapshot.mk "running" ["s1", "s2"] none none)])) = 1 ∧
    (∀ rest' : List (PollResult String),
      monitor_task_stream
          ([PollResult.ok (TaskSnapshot.mk "running" ["s1"] none none)] ++
            PollResult.exn "boom" :: rest') =
        monitor_task_stream
          ([PollResult.ok (TaskSnapshot.mk "running" ["s1"] none none)] ++
            PollResult.exn "boom" :: [PollResult.ok
              (TaskSnapshot.mk "running" ["s1", "s2"] none none)]))) :=
  ⟨by decide, monitor_error_event_halts
    [PollResult.ok (TaskSnapshot.mk "running" ["s1"] none none)] "boom"
    [PollResult.ok (TaskSnapshot.mk "running" ["s1", "s2"] none none)] (by decide)⟩

/-- The carried step count never decreases, over any sequence of polls. -/
lemma stateAfter_mono {Step : Type} (polls : List (PollResult Step)) (prev : Nat) :
    prev ≤ stateAfter prev polls := by
  induction polls generalizing prev with
  | nil => exact Nat.le_refl prev
  | cons p rest ih =>
    have h1 : prev ≤ stepState prev p := by
      match p with
      | PollResult.ok snap =>
        simp only [stepState]
        split
        · omega
        · exact Nat.le_refl prev
      | PollResult.exn m => exact Nat.le_refl prev
    exact Nat.le_trans h1 (ih (stepState prev p))

/-- C10: a poll whose step list is no longer than the last-seen count emits
zero step events for its tick and leaves the carried count unchanged — the
shrunk (or equal) snapshot is silently ignored, never treated as an error;
and across any run the carried count is non-decreasing. -/
theorem monitor_count_non_decreasing {Step : Type} (prev : Nat)
    (snap : TaskSnapshot Step) (rest : List (PollResult Step))
    (h : snap.steps.length ≤ prev) :
    monitorFrom prev (PollResult.ok snap :: rest) =
      Event.status snap.status snap.live_url snap.steps.length ::
        (if snap.status ∈ terminalStatuses then
          [Event.completion snap.status snap.done_output]
        else monitorFrom prev rest) ∧
    stepState prev (PollResult.ok snap) = prev ∧
    countErrors ([Event.status snap.status snap.live_url
      snap.steps.length] : List (Event Step)) = 0 ∧
    (∀ polls : List (PollResult Step), prev ≤ stateAfter prev polls) := by
  refine ⟨monitorFrom_ok_of_ge prev snap rest h, ?_, rfl,
    fun polls => stateAfter_mono polls prev⟩
  have hnot : ¬ (snap.steps.length > prev) := by omega
  simp [stepState, hnot]

/-- Witness for C10: last-seen count 2, snapshot shrunk to one step: only a
status event for that tick, count kept at 2. -/
theorem monitor_count_non_decreasing_witness :
    (TaskSnapshot.mk "running" ["s1"] none (none : Option String)).steps.length ≤ 2 ∧
    (monitorFrom 2 [PollResult.ok (TaskSnapshot.mk "running" ["s1"] none none)] =
      Event.status "running" none 1 ::
        (if ("running" : String) ∈ terminalStatuses then
          [Event.completion "running" none]
        else monitorFrom 2 []) ∧
    stepState 2 (PollResult.ok (TaskSnapshot.mk "running" ["s1"] none none)) = 2 ∧
    countErrors ([Event.status "running" none 1] : List (Event String)) = 0 ∧
    (∀ polls : List (PollResult String), 2 ≤ stateAfter 2 polls)) :=
  ⟨by decide, monitor_count_non_decreasing 2
    (TaskSnapshot.mk "running" ["s1"] none none) [] (by decide)⟩

/-- C4: for polls returning statuses [running, running, finished] with step
lists [], [s1], [s1,s2], the monitor emits exactly
status(running,0), step(s1), status(running,1), step(s2),
status(finished,2), completion(output). -/
theorem monitor_concrete_scenario :
    monitor_task_stream
      [PollResult.ok (TaskSnapshot.mk "running" ([] : List String) none none),
       PollResult.ok (TaskSnapshot.mk "running" ["s1"] none none),
       PollResult.ok (TaskSnapshot.mk "finished" ["s1", "s2"] none (some "output"))] =
      [Event.status "running" none 0,
       Event.step "s1",
       Event.status "running" none 1,
       Event.step "s2",
       Event.status "finished" none 2,
       Event.completion "finished" (some "output")] := by
  decide

/-!
Flow generation (`generate_flows` in `services/llm_service.py` lines 91-162;
the same pipeline appears as `generate_flows_with_llm` in `main.py`).  The
model's text response is embedded as the `content` string; the Gemini call
itself is external.  `json.loads` is modelled by an executable parser over a
JSON value type, faithful on the fragment the pipeline can meet (objects,
arrays, strings with the common escapes, integer numerals, true/false/null);
fractional and exponent numerals and \u escapes are outside the model.
Pydantic's `TestFlow(...)` construction requires the three field values to
be strings and raises a ValidationError otherwise (both pydantic 1 and 2
reject non-coercible values such as null); `GenError.validationError` models
that raise.
-/

/-- JSON values as produced by `json.loads`; objects keep their key/value
pairs in document order (lookup takes the last occurrence of a repeated
key, like a Python dict built by successive insertion). -/
inductive Json where
  | null : Json
  | bool (b : Bool) : Json
  | num (n : Int) : Json
  | str (s : String) : Json
  | arr (items : List Json) : Json
  | obj (fields : List (String × Json)) : Json

/-- JSON insignificant whitespace (also the whitespace Python's `strip`
removes from the responses this code meets). -/
def jsonWs (c : Char) : Bool := (" \t\n\r".data).contains c

/-- Drop leading whitespace. -/
def skipWs (cs : List Char) : List Char := cs.dropWhile jsonWs

/-- The escape sequences the model supports, as marker/denoted pairs. -/
def escPairs : List (Char × Char) :=
  [('"', '"'), ('\\', '\\'), ('/', '/'), ('n', '\n'), ('t', '\t'), ('r', '\r')]

/-- The character an escape sequence denotes, for the escapes the model
supports. -/
def escChar (c : Char) : Option Char :=
  (escPairs.find? (fun p => p.1 == c)).map Prod.snd

/-- Parse the body of a JSON string after its opening quote, returning the
string and the input after the closing quote. -/
def parseStringBody : List Char → Option (String × List Char)
  | [] => none
  | '"' :: rest => some ("", rest)
  | '\\' :: c :: rest =>
    match escChar c with
    | none => none
    | some e =>
      match parseStringBody rest with
      | none => none
      | some (s, r) => some (String.mk (e :: s.data), r)
  | c :: rest =>
    match parseStringBody rest with
    | none => none
    | some (s, r) => some (String.mk (c :: s.data), r)

/-- Digits to the natural number they denote. -/
def digitsToNat (ds : List Char) : Nat :=
  ds.foldl (fun acc c => acc * 10 + (c.toNat - 48)) 0

/-- Parse an integer JSON numeral (optional minus, digits); fractional or
exponent numerals are outside the modelled fragment. -/
def parseNumber (cs : List Char) : Option (Int × List Char) :=
  let core := fun (cs1 : List Char) (neg : Bool) =>
    let ds := cs1.takeWhile Char.isDigit
    let rest := cs1.dropWhile Char.isDigit
    if ds.isEmpty then none
    else
      match rest with
      | '.' :: _ => none
      | 'e' :: _ => none
      | 'E' :: _ => none
      | _ => some (if neg then -(digitsToNat ds : Int) else (digitsToNat ds : Int), rest)
  match cs with
  | '-' :: cs1 => core cs1 true
  | _ => core cs false

/-- What the recursive-descent parser is currently parsing: a value, the
items of a (non-empty) array after its opening bracket, or the fields of a
(non-empty) object after its opening brace. -/
inductive PMode where
  | top : PMode
  | arrTail : PMode
  | objTail : PMode

/-- Result of one parsing task. -/
inductive POut where
  | val (v : Json) : POut
  | items (vs : List Json) : POut
  | fields (fs : List (String × Json)) : POut

/-- Fuel-indexed recursive-descent JSON parser; the fuel only has to exceed
the recursion depth, which is bounded by twice the input length. -/
def parseStep : Nat → PMode → List Char → Option (POut × List Char)
  | 0, _, _ => none
  | fuel + 1, PMode.top, cs =>
    match skipWs cs with
    | '"' :: rest =>
      (parseStringBody rest).map (fun p => (POut.val (Json.str p.1), p.2))
    | '[' :: rest =>
      (match skipWs rest with
       | ']' :: r2 => some (POut.val (Json.arr []), r2)
       | cs2 =>
         match parseStep fuel PMode.arrTail cs2 with
         | some (POut.items vs, r) => some (POut.val (Json.arr vs), r)
         | _ => none)
    | '\x7b' :: rest =>
      (match skipWs rest with
       | '\x7d' :: r2 => some (POut.val (Json.obj []), r2)
       | cs2 =>
         match parseStep fuel PMode.objTail cs2 with
         | some (POut.fields fs, r) => some (POut.val (Json.obj fs), r)
         | _ => none)
    | 't' :: 'r' :: 'u' :: 'e' :: rest => some (POut.val (Json.bool true), rest)
    | 'f' :: 'a' :: 'l' :: 's' :: 'e' :: rest => some (POut.val (Json.bool false), rest)
    | 'n' :: 'u' :: 'l' :: 'l' :: rest => some (POut.val Json.null, rest)
    | cs2 => (parseNumber cs2).map (fun p => (POut.val (Json.num p.1), p.2))
  | fuel + 1, PMode.arrTail, cs =>
    (match parseStep fuel PMode.top cs with
     | some (POut.val v, rest) =>
       (match skipWs rest with
        | ',' :: r2 =>
          (match parseStep fuel PMode.arrTail r2 with
           | some (POut.items vs, r3) => some (POut.items (v :: vs), r3)
           | _ => none)
        | ']' :: r2 => some (POut.items [v], r2)
        | _ => none)
     | _ => none)
  | fuel + 1, PMode.objTail, cs =>
    (match skipWs cs with
     | '"' :: rest =>
       (match parseStringBody rest with
        | some (k, r1) =>
          (match skipWs r1 with
           | ':' :: r2 =>
             (match parseStep fuel PMode.top r2 with
              | some (POut.val v, r3) =>
                (match skipWs r3 with
                 | ',' :: r4 =>
                   (match parseStep fuel PMode.objTail r4 with
                    | some (POut.fields fs, r5) => some (POut.fields ((k, v) :: fs), r5)
                    | _ => none)
                 | '\x7d' :: r4 => some (POut.fields [(k, v)], r4)
                 | _ => none)
              | _ => none)
           | _ => none)
        | none => none)
     | _ => none)

/-- `json.loads`: parse one JSON value and require only whitespace after
it. -/
def parseJson (cs : List Char) : Option Json :=
  match parseStep (2 * cs.length + 2) PMode.top cs with
  | some (POut.val v, rest) => if (skipWs rest).isEmpty then some v else none
  | _ => none

/-- Python's `str.strip()` on the whitespace the responses contain. -/
def pyTrim (cs : List Char) : List Char :=
  ((cs.dropWhile jsonWs).reverse.dropWhile jsonWs).reverse

/-- Markdown fence stripping, `llm_service.py` lines 124-129: drop a leading
seven-character json fence marker, then a leading three-character fence
marker, then a trailing three-character fence marker, each only if
present. -/
def stripFences (cs : List Char) : List Char :=
  let s1 := if ("```json".data).isPrefixOf cs then cs.drop 7 else cs
  let s2 := if ("```".data).isPrefixOf s1 then s1.drop 3 else s1
  if ("```".data).isSuffixOf s2 then s2.take (s2.length - 3) else s2

/-- The full cleaning applied before `json.loads`: `content.strip()`
(line 121), fence stripping, and the final `.strip()` at line 132. -/
def stripOuter (cs : List Char) : List Char := pyTrim (stripFences (pyTrim cs))

/-- `TestFlow` (`models.py` lines 35-39): exactly three string fields. -/
structure TestFlow where
  name : String
  description : String
  instructions : String
deriving DecidableEq

/-- The distinct raises of `generate_flows`: empty response (line 119),
invalid JSON (line 159), JSON that is not a list (line 136), a pydantic
validation failure while constructing a `TestFlow` (lines 144-148), and no
valid flows after filtering (line 151). -/
inductive GenError where
  | emptyResponse : GenError
  | invalidJson : GenError
  | notAList : GenError
  | validationError : GenError
  | noValidFlows : GenError
deriving DecidableEq

/-- Python dict lookup on the parsed object's fields (last occurrence of a
key wins, as when `json.loads` builds the dict). -/
def jget (kvs : List (String × Json)) (k : String) : Option Json :=
  kvs.foldl (fun acc kv => if kv.1 == k then some kv.2 else acc) none

/-- The key-presence check of line 143:
`all(key in flow_data for key in ["name", "description", "instructions"])`. -/
def keyComplete (kvs : List (String × Json)) : Bool :=
  (jget kvs "name").isSome && (jget kvs "description").isSome &&
    (jget kvs "instructions").isSome

/-- `TestFlow(name=..., description=..., instructions=...)`: succeeds with
the three values exactly when all three are JSON strings. -/
def flowOfFields (kvs : List (String × Json)) : Option TestFlow :=
  match jget kvs "name", jget kvs "description", jget kvs "instructions" with
  | some (Json.str n), some (Json.str d), some (Json.str i) =>
    some (TestFlow.mk n d i)
  | _, _, _ => none

/-- The flow an item contributes to the result list, if any: it must be an
object, pass the key-presence check, and have string values. -/
def flowOfJson (j : Json) : Option TestFlow :=
  match j with
  | Json.obj kvs => if keyComplete kvs then flowOfFields kvs else none
  | _ => none

/-- An item that makes pydantic raise: it passes the key-presence check but
some of the three values is not a string. -/
def badItem (j : Json) : Bool :=
  match j with
  | Json.obj kvs => keyComplete kvs && (flowOfFields kvs).isNone
  | _ => false

/-- The `for flow_data in flows_data` loop of lines 140-148: non-dict items
and items failing the key check are skipped, key-complete items are turned
into `TestFlow`s in order, and a failing construction aborts the loop. -/
def buildFlows : List Json → Except GenError (List TestFlow)
  | [] => Except.ok []
  | j :: rest =>
    match j with
    | Json.obj kvs =>
      if keyComplete kvs then
        match flowOfFields kvs with
        | some f => (buildFlows rest).map (fun fs => f :: fs)
        | none => Except.error GenError.validationError
      else buildFlows rest
    | _ => buildFlows rest

/-- Lines 140-151: run the conversion loop, then raise if no valid flow was
collected. -/
def extractFlows (items : List Json) : Except GenError (List TestFlow) :=
  match buildFlows items with
  | Except.error e => Except.error e
  | Except.ok [] => Except.error GenError.noValidFlows
  | Except.ok fs => Except.ok fs

namespace LLMService

/-- `generate_flows` from the model response text onward (lines 117-159):
raise on empty text, strip and parse, require a JSON list, convert and
filter the items.  The JSON-decode failure of `json.loads` corresponds to
the ValueError re-raised at line 159. -/
def generate_flows (content : String) : Except GenError (List TestFlow) :=
  if content = "" then Except.error GenError.emptyResponse
  else
    match parseJson (stripOuter content.data) with
    | none => Except.error GenError.invalidJson
    | some (Json.arr items) => extractFlows items
    | some _ => Except.error GenError.notAList

end LLMService

/-- The conversion loop either stops at the first pydantic-failing item or
returns exactly the well-formed items' flows, in item order. -/
lemma buildFlows_spec (items : List Json) :
    buildFlows items =
      if items.any badItem then Except.error GenError.validationError
      else Except.ok (items.filterMap flowOfJson) := by
  induction items with
  | nil => rfl
  | cons j rest ih =>
    cases j with
    | obj kvs =>
      cases hk : keyComplete kvs with
      | false =>
        simp [buildFlows, badItem, flowOfJson, hk, ih]
      | true =>
        cases hf : flowOfFields kvs with
        | none =>
          simp [buildFlows, badItem, flowOfJson, hk, hf]
        | some f =>
          cases hany : rest.any badItem with
          | true =>
            simp [buildFlows, badItem, flowOfJson, hk, hf, hany, ih, Except.map]
          | false =>
            simp [buildFlows, badItem, flowOfJson, hk, hf, hany, ih, Except.map]
    | null => simp [buildFlows, badItem, flowOfJson, ih]
    | bool b => simp [buildFlows, badItem, flowOfJson, ih]
    | num n => simp [buildFlows, badItem, flowOfJson, ih]
    | str s => simp [buildFlows, badItem, flowOfJson, ih]
    | arr xs => simp [buildFlows, badItem, flowOfJson, ih]

/-- Outcome of lines 140-151 as a whole: a pydantic failure aborts;
otherwise the well-formed items' flows are returned unless none exist. -/
lemma extractFlows_spec (items : List Json) :
    extractFlows items =
      if items.any badItem then Except.error GenError.validationError
      else if (items.filterMap flowOfJson).isEmpty then
        Except.error GenError.noValidFlows
      else Except.ok (items.filterMap flowOfJson) := by
  cases hany : items.any badItem with
  | true => simp [extractFlows, buildFlows_spec, hany]
  | false =>
    cases hfm : items.filterMap flowOfJson with
    | nil => simp [extractFlows, buildFlows_spec, hany, hfm]
    | cons f fs => simp [extractFlows, buildFlows_spec, hany, hfm]

/-- C7: when the model output parses to a JSON list none of whose items
trips pydantic (every key-complete item has string values), the pipeline
never raises on malformed items: non-object items and items missing one of
the three fields contribute nothing, the successful result is exactly the
well-formed items' flows in order — each carrying exactly the three string
fields, by the shape of `TestFlow` — and the only possible failure left is
having no valid flow at all. -/
theorem flow_items_filtered_without_raising (items : List Json)
    (h : ∀ j ∈ items, badItem j = false) :
    extractFlows items =
      (if (items.filterMap flowOfJson).isEmpty then
        Except.error GenError.noValidFlows
      else Except.ok (items.filterMap flowOfJson)) ∧
    (∀ kvs, keyComplete kvs = false → flowOfJson (Json.obj kvs) = none) ∧
    (∀ j : Json, (∀ kvs, j ≠ Json.obj kvs) → flowOfJson j = none) ∧
    (∀ fs, extractFlows items = Except.ok fs → fs = items.filterMap flowOfJson) := by
  have hany : items.any badItem = false := by
    simp only [List.any_eq_false]
    intro j hj
    simp [h j hj]
  have hspec := extractFlows_spec items
  rw [hany] at hspec
  simp only [if_false, Bool.false_eq_true, ite_false] at hspec
  refine ⟨hspec, ?_, ?_, ?_⟩
  · intro kvs hk
    simp [flowOfJson, hk]
  · intro j hj
    cases j with
    | obj kvs => exact absurd rfl (hj kvs)
    | null => rfl
    | bool b => rfl
    | num n => rfl
    | str s => rfl
    | arr xs => rfl
  · intro fs hfs
    rw [hspec] at hfs
    by_cases he : (items.filterMap flowOfJson).isEmpty
    · rw [if_pos he] at hfs
      exact absurd hfs (by simp)
    · rw [if_neg he] at hfs
      exact (Except.ok.injEq _ _ ▸ congrArg id hfs).symm ▸ by
        cases hfs
        rfl

/-- Witness for C7: a well-formed item, a non-object item and an item
missing two fields: the two malformed items are dropped, one flow results. -/
theorem flow_items_filtered_without_raising_witness :
    (∀ j ∈ [Json.obj [("name", Json.str "A"), ("description", Json.str "B"),
              ("instructions", Json.str "C")],
            Json.num 5,
            Json.obj [("name", Json.str "X")]], badItem j = false) ∧
    (extractFlows [Json.obj [("name", Json.str "A"), ("description", Json.str "B"),
          ("instructions", Json.str "C")],
        Json.num 5,
        Json.obj [("name", Json.str "X")]] =
      (if ([Json.obj [("name", Json.str "A"), ("description", Json.str "B"),
              ("instructions", Json.str "C")],
            Json.num 5,
            Json.obj [("name", Json.str "X")]].filterMap flowOfJson).isEmpty then
        Except.error GenError.noValidFlows
      else Except.ok ([Json.obj [("name", Json.str "A"), ("description", Json.str "B"),
              ("instructions", Json.str "C")],
            Json.num 5,
            Json.obj [("name", Json.str "X")]].filterMap flowOfJson)) ∧
    (∀ kvs, keyComplete kvs = false → flowOfJson (Json.obj kvs) = none) ∧
    (∀ j : Json, (∀ kvs, j ≠ Json.obj kvs) → flowOfJson j = none) ∧
    (∀ fs, extractFlows [Json.obj [("name", Json.str "A"), ("description", Json.str "B"),
          ("instructions", Json.str "C")],
        Json.num 5,
        Json.obj [("name", Json.str "X")]] = Except.ok fs →
      fs = [Json.obj [("name", Json.str "A"), ("description", Json.str "B"),
              ("instructions", Json.str "C")],
            Json.num 5,
            Json.obj [("name", Json.str "X")]].filterMap flowOfJson)) :=
  by
  refine ⟨?_, flow_items_filtered_without_raising _ ?_⟩ <;> decide

/-- C8: the concrete fenced model output containing one JSON object with
the three fields A, B, C yields exactly one flow record (A, B, C): the
fences are stripped, the JSON parsed, the single item converted. -/
theorem fenced_json_yields_single_flow :
    LLMService.generate_flows
      "```json\n[\x7b\"name\":\"A\",\"description\":\"B\",\"instructions\":\"C\"\x7d]\n```" =
      Except.ok [TestFlow.mk "A" "B" "C"] := by
  rfl

/-- C6, amended: the failure cases of flow generation, one iff per raise.
The empty-output failure is a distinct error from the JSON-parse failure,
and they arise under disjoint, exhaustively characterized conditions; the
two raises beyond the three the claim lists are the non-list JSON raise and
the pydantic validation raise. -/
theorem flow_generation_failure_cases (content : String) :
    (LLMService.generate_flows content = Except.error GenError.emptyResponse ↔
      content = "") ∧
    (LLMService.generate_flows content = Except.error GenError.invalidJson ↔
      content ≠ "" ∧ parseJson (stripOuter content.data) = none) ∧
    (LLMService.generate_flows content = Except.error GenError.notAList ↔
      content ≠ "" ∧ ∃ j, parseJson (stripOuter content.data) = some j ∧
        ∀ items, j ≠ Json.arr items) ∧
    (LLMService.generate_flows content = Except.error GenError.validationError ↔
      content ≠ "" ∧ ∃ items,
        parseJson (stripOuter content.data) = some (Json.arr items) ∧
        items.any badItem = true) ∧
    (LLMService.generate_flows content = Except.error GenError.noValidFlows ↔
      content ≠ "" ∧ ∃ items,
        parseJson (stripOuter content.data) = some (Json.arr items) ∧
        items.any badItem = false ∧ items.filterMap flowOfJson = []) := by
  by_cases hc : content = ""
  · subst hc
    simp [LLMService.generate_flows]
  · cases hp : parseJson (stripOuter content.data) with
    | none =>
      simp [LLMService.generate_flows, hc, hp]
    | some j =>
      cases j with
      | arr items =>
        cases hany : items.any badItem with
        | true =>
          simp [LLMService.generate_flows, hc, hp, extractFlows_spec, hany]
          refine ⟨List.any_eq_true.mp hany, ?_⟩
          intro hall
          rcases List.any_eq_true.mp hany with ⟨x, hx, hbad⟩
          rw [hall x hx] at hbad
          exact absurd hbad (by simp)
        | false =>
          have hall : ∀ x ∈ items, badItem x = false := by
            intro x hx
            have := List.any_eq_false.mp hany x hx
            simpa using this
          cases hfm : items.filterMap flowOfJson with
          | nil =>
            simp [LLMService.generate_flows, hc, hp, extractFlows_spec, hany, hfm]
            exact ⟨hall, List.filterMap_eq_nil_iff.mp hfm⟩
          | cons f fs =>
            simp [LLMService.generate_flows, hc, hp, extractFlows_spec, hany, hfm]
            refine ⟨hall, ?_⟩
            intro _
            by_contra hno
            push_neg at hno
            rw [List.filterMap_eq_nil_iff.mpr hno] at hfm
            cases hfm
      | null => simp [LLMService.generate_flows, hc, hp]
      | bool b => simp [LLMService.generate_flows, hc, hp]
      | num n => simp [LLMService.generate_flows, hc, hp]
      | str s => simp [LLMService.generate_flows, hc, hp]
      | obj kvs => simp [LLMService.generate_flows, hc, hp]

/-- A model output on which flow generation raises although it is
non-empty, is valid JSON (a list) after stripping, and yields one valid
entry after filtering: the second item passes the key check but has a null
name, so pydantic raises while constructing the `TestFlow`. -/
def badContent : String :=
  "[\x7b\"name\":\"A\",\"description\":\"B\",\"instructions\":\"C\"\x7d,\x7b\"name\":null,\"description\":\"B\",\"instructions\":\"C\"\x7d]"

/-- The parsed form of `badContent`. -/
def badContentItems : List Json :=
  [Json.obj [("name", Json.str "A"), ("description", Json.str "B"),
    ("instructions", Json.str "C")],
   Json.obj [("name", Json.null), ("description", Json.str "B"),
    ("instructions", Json.str "C")]]

/-- C6, counterexample to the claim as stated: `badContent` is non-empty,
parses as a JSON list after stripping, and yields one valid entry after
filtering — none of the three claimed failure cases — yet flow generation
raises (the pydantic validation failure on the null-valued name). -/
theorem flow_generation_raises_outside_claimed_cases :
    LLMService.generate_flows badContent = Except.error GenError.validationError ∧
    badContent ≠ "" ∧
    parseJson (stripOuter badContent.data) = some (Json.arr badContentItems) ∧
    badContentItems.filterMap flowOfJson = [TestFlow.mk "A" "B" "C"] := by
  refine ⟨rfl, by decide, rfl, rfl⟩

/-!
Credential store.  The repository's `test_server.py` holds only the raw
process-wide dict (`CREDENTIALS_STORE`, upserted verbatim by
`add_credentials`); the normalization and wildcard lookup the spec
describes are not under src/, so they are modelled from the spec (section
4.4) below.
-/

/-- String prefix test, computed on the character lists. -/
def strStartsWith (s p : String) : Bool := p.data.isPrefixOf s.data

/-- String suffix test, computed on the character lists. -/
def strEndsWith (s p : String) : Bool := p.data.isSuffixOf s.data

/-- Drop the first `n` characters of a string. -/
def strDrop (s : String) (n : Nat) : String := String.mk (s.data.drop n)

/-- Modelled from the spec: the scheme stripping performed on a domain
before it is used as a credential pattern or query ("normalize by stripping
a leading scheme", "strip scheme from the query domain"); the repository
code for this is not under src/. -/
def stripScheme (domain : String) : String :=
  if strStartsWith domain "https://" then strDrop domain 8
  else if strStartsWith domain "http://" then strDrop domain 7
  else domain

/-- Modelled from the spec: normalization of a stored credential pattern —
strip a leading scheme and ensure a wildcard prefix if not already present
(spec 4.4); the repository code for this is not under src/. -/
def normalizePattern (domain : String) : String :=
  let d := stripScheme domain
  if strStartsWith d "*." then d else "*." ++ d

/-- The credential store: normalized domain pattern to flat string/string
secret mapping, at most one record per pattern. -/
abbrev CredStore := List (String × List (String × String))

/-- Modelled from the spec: `add(domain, mapping)` — normalize then upsert
(last write wins, insertion order kept); the repository code for this is
not under src/. -/
def addCredentials (store : CredStore) (domain : String)
    (creds : List (String × String)) : CredStore :=
  let key := normalizePattern domain
  if store.any (fun kv => kv.1 == key) then
    store.map (fun kv => if kv.1 == key then (key, creds) else kv)
  else store ++ [(key, creds)]

/-- Modelled from the spec: `lookup(domain)` — strip the scheme from the
query, exact pattern match wins, otherwise the first wildcard pattern whose
suffix after the wildcard marker is a suffix of the query domain matches;
the repository code for this is not under src/. -/
def lookupCredentials (store : CredStore) (domain : String) :
    Option (List (String × String)) :=
  let q := stripScheme domain
  match store.find? (fun kv => kv.1 == q) with
  | some kv => some kv.2
  | none =>
    (store.find? (fun kv =>
      strStartsWith kv.1 "*." && strEndsWith q (strDrop kv.1 2))).map Prod.snd

/-- C5: adding credentials for example.com stores them under the wildcard
pattern for example.com, and lookups for www.example.com and example.com
both return them while other.com finds nothing. -/
theorem credential_lookup_scenario :
    addCredentials [] "example.com" [("u", "a")] =
      [("*.example.com", [("u", "a")])] ∧
    lookupCredentials (addCredentials [] "example.com" [("u", "a")])
      "www.example.com" = some [("u", "a")] ∧
    lookupCredentials (addCredentials [] "example.com" [("u", "a")])
      "example.com" = some [("u", "a")] ∧
    lookupCredentials (addCredentials [] "example.com" [("u", "a")])
      "other.com" = none := by
  refine ⟨rfl, rfl, rfl, rfl⟩

/-!
Endpoint gating on missing provider API keys.  `routes/browser.py` guards
each Browser Use Cloud endpoint with `browser_use_cloud_service.is_available()`
(`bool(self.api_key)`) and raises `HTTPException(status_code=503, ...)`;
`routes/llm.py` (and the `main.py` copy) guards `/api/generate-flows` with
`llm_service.is_available()` but returns a normal `GenerateFlowsResponse`
whose `status` field is "error".  The body of the available case involves
the network, so it is abstracted as the `proceed` argument.
-/

/-- A FastAPI `HTTPException`: status code and detail. -/
structure HTTPExceptionModel where
  status_code : Nat
  detail : String
deriving DecidableEq

/-- What a route handler produces: a normal response body, or a raised
`HTTPException` that FastAPI turns into an error status reply; either way
the process survives. -/
inductive HandlerResult (α : Type) where
  | response (body : α)
  | httpError (e : HTTPExceptionModel)

/-- `GenerateFlowsResponse` body fields relevant here (`models.py`):
flows, message and the `status` success/error discriminator. -/
structure GenerateFlowsResponse where
  flows : List TestFlow
  message : String
  status : String
deriving DecidableEq

/-- `BrowserUseCloudService.is_available` (line 34-36): `bool(self.api_key)`
on the optional `BROWSER_USE_API_KEY` environment value. -/
def browser_use_is_available (api_key : Option String) : Bool :=
  match api_key with
  | none => false
  | some k => !(k == "")

/-- `create_browser_cloud_task` (`routes/browser.py` lines 240-260) up to
its availability gate: a missing key raises the 503 before any work;
otherwise the handler proceeds (abstracted, it calls the provider). The
other two Browser Use Cloud endpoints carry the identical gate. -/
def create_browser_cloud_task {α : Type} (api_key : Option String)
    (proceed : HandlerResult α) : HandlerResult α :=
  if browser_use_is_available api_key then proceed
  else HandlerResult.httpError
    (HTTPExceptionModel.mk 503
      "Browser Use Cloud API key not configured. Please check BROWSER_USE_API_KEY.")

namespace LLMRoutes

/-- `generate_flows` (`routes/llm.py` lines 18-29, same in `main.py` lines
286-297) up to its availability gate: when the LLM service is unavailable
(no `GEMINI_API_KEY`, so no client was constructed) the handler returns a
normal response whose body carries status "error"; otherwise it proceeds. -/
def generate_flows (available : Bool)
    (proceed : HandlerResult GenerateFlowsResponse) :
    HandlerResult GenerateFlowsResponse :=
  if available then proceed
  else HandlerResult.response
    (GenerateFlowsResponse.mk []
      "LLM service not available. Please set GEMINI_API_KEY environment variable."
      "error")

end LLMRoutes

/-- Whether a handler outcome is a service-unavailable (503) error reply. -/
def isServiceUnavailable {α : Type} : HandlerResult α → Bool
  | HandlerResult.httpError e => e.status_code == 503
  | HandlerResult.response _ => false

/-- C9, counterexample to the claim as stated: with the key absent the
Browser Use Cloud endpoint does return a 503, but the flow-generation
endpoint returns a normal response whose body says status "error" — not a
503-equivalent service-unavailable reply — so the claimed behavior does not
hold for both endpoint families alike. -/
theorem flow_generation_unavailable_not_503 :
    LLMRoutes.generate_flows false
        (HandlerResult.response (GenerateFlowsResponse.mk [] "x" "success")) =
      HandlerResult.response
        (GenerateFlowsResponse.mk []
          "LLM service not available. Please set GEMINI_API_KEY environment variable."
          "error") ∧
    isServiceUnavailable
      (LLMRoutes.generate_flows false
        (HandlerResult.response (GenerateFlowsResponse.mk [] "x" "success"))) =
      false ∧
    isServiceUnavailable
      (create_browser_cloud_task none
        (HandlerResult.response (GenerateFlowsResponse.mk [] "x" "success"))) =
      true := by
  refine ⟨rfl, rfl, rfl⟩

/-- C9, amended: with the provider key absent neither endpoint family
crashes; the Browser Use Cloud endpoints return an HTTP 503 with the
configuration detail, while the flow-generation endpoint returns a normal
response whose body has status "error" and the message naming the missing
key. -/
theorem missing_key_gate_behavior {α : Type} (proceed : HandlerResult α)
    (proceedF : HandlerResult GenerateFlowsResponse) :
    create_browser_cloud_task none proceed =
      HandlerResult.httpError
        (HTTPExceptionModel.mk 503
          "Browser Use Cloud API key not configured. Please check BROWSER_USE_API_KEY.") ∧
    create_browser_cloud_task (some "") proceed =
      HandlerResult.httpError
        (HTTPExceptionModel.mk 503
          "Browser Use Cloud API key not configured. Please check BROWSER_USE_API_KEY.") ∧
    LLMRoutes.generate_flows false proceedF =
      HandlerResult.response
        (GenerateFlowsResponse.mk []
          "LLM service not available. Please set GEMINI_API_KEY environment variable."
          "error") := by
  refine ⟨rfl, rfl, rfl⟩
